import Mathlib

/-!
Shallow embedding of the zenway navigation screen:
`frontend/app/components/NavigationView.tsx` (the progress simulator) and
`frontend/app/components/RealMap.tsx` (map controller, geometry resolver and
transit-stop projector).  Machine numbers are modelled as exact rationals;
JavaScript `Math.round` is modelled as `fun q => ⌊q + 1/2⌋` (round half toward
positive infinity) and `Number(x.toFixed(2))` as rounding to two decimals.
-/

namespace Zenway

/-- A latitude/longitude pair (leaflet `LatLngLiteral`). -/
structure LatLngPoint where
  lat : ℚ
  lng : ℚ
deriving DecidableEq

/-- A walking segment.  Modelled from the spec: the `Segment` shape of
`app/types` is not among the analysed sources; the fields follow §3 of the
spec and the uses in `NavigationView.tsx` (distance, duration, start and end
labels, last-mile flag). -/
structure Segment where
  distance : ℚ
  duration : ℚ
  startPoint : String
  endPoint : String
  isLastMile : Bool
deriving DecidableEq

/-- Modelled from the spec: the `Route` entity of `app/types` is not among the
analysed sources; only the fields the simulator reads are modelled here
(planned duration in minutes, optional planned distance in km, optional
segment list).  `distance = none` stands for an absent field. -/
structure Route where
  duration : ℚ
  distance : Option ℚ
  walkingSegments : Option (List Segment)
deriving DecidableEq

/-- JavaScript `route.distance || 0.8`: an absent or zero distance falls back
to the 0.8 km default (NavigationView.tsx lines 54-56, 78 and 101). -/
def distanceOrDefault (d : Option ℚ) : ℚ :=
  match d with
  | none => 0.8
  | some x => if x = 0 then 0.8 else x

/-- The synthetic single segment used when `route.walkingSegments` is absent
or empty (NavigationView.tsx lines 76-84). -/
def syntheticSegment (r : Route) : Segment :=
  { distance := distanceOrDefault r.distance
    duration := r.duration
    startPoint := "Start"
    endPoint := "Destination"
    isLastMile := true }

/-- The segment list the simulator runs over (NavigationView.tsx lines
73-84). -/
def segmentsOf (r : Route) : List Segment :=
  match r.walkingSegments with
  | some segs => if 0 < segs.length then segs else [syntheticSegment r]
  | none => [syntheticSegment r]

/-- One tick's fraction-complete, `Math.min(elapsed / durationMs, 1)`
(NavigationView.tsx line 93). -/
def fractionAt (durationMs elapsed : ℚ) : ℚ :=
  min (elapsed / durationMs) 1

/-- The duration in milliseconds, `route.duration * 60 * 1000`
(NavigationView.tsx line 87). -/
def durationMsOf (r : Route) : ℚ := r.duration * 60 * 1000

/-- JavaScript `Math.round`: round half toward positive infinity. -/
def jsRound (q : ℚ) : ℤ := ⌊q + 1 / 2⌋

/-- `Number(x.toFixed(2))`: rounding to two decimal places. -/
def round2 (q : ℚ) : ℚ := (jsRound (q * 100) : ℚ) / 100

/-- Remaining minutes set on a tick (NavigationView.tsx lines 96-98). -/
def remainingMinutes (r : Route) (fraction : ℚ) : ℤ :=
  max (jsRound (r.duration * (1 - fraction))) 0

/-- Remaining distance set on a tick (NavigationView.tsx lines 99-104). -/
def remainingDistance (r : Route) (fraction : ℚ) : ℚ :=
  max (round2 (distanceOrDefault r.distance * (1 - fraction))) 0

/-- The initial remaining-distance state (NavigationView.tsx lines 54-56). -/
def initialRemainingDistance (r : Route) : ℚ := distanceOrDefault r.distance

/-- Total segment duration, `segments.reduce((s, seg) => s + seg.duration, 0)`
(NavigationView.tsx line 107). -/
def totalSegmentDuration (segs : List Segment) : ℚ :=
  (segs.map Segment.duration).sum

/-- The `for` loop of NavigationView.tsx lines 109-115: accumulate durations
and return the first index whose running total reaches `target`; `none` when
no index satisfies it (the loop then leaves the previous index in place). -/
def segmentScan (target cum : ℚ) : List Segment → Option ℕ
  | [] => none
  | seg :: rest =>
    if target ≤ cum + seg.duration then some 0
    else (segmentScan target (cum + seg.duration) rest).map (· + 1)

/-- The active-segment computation of one tick (NavigationView.tsx lines
106-115). -/
def activeSegmentIndex (segs : List Segment) (fraction : ℚ) : Option ℕ :=
  segmentScan (totalSegmentDuration segs * fraction) 0 segs

/-- Running cumulative durations of a segment list, starting from `cum`. -/
def cumDurations (cum : ℚ) : List Segment → List ℚ
  | [] => []
  | seg :: rest => (cum + seg.duration) :: cumDurations (cum + seg.duration) rest

/-- Modelled from the spec wording "the first segment whose cumulative
duration is ≥ target": the index of the first list entry that reaches
`target`. -/
def firstIndexGE (target : ℚ) : List ℚ → Option ℕ
  | [] => none
  | c :: rest =>
    if target ≤ c then some 0 else (firstIndexGE target rest).map (· + 1)

/-- The tick loop of NavigationView.tsx lines 90-122, run over the elapsed
times of the prospective animation frames of one simulation run: a tick with
fraction below 1 schedules the next frame, a tick with fraction 1 invokes
`onComplete` and stops.  Returns the number of `onComplete` invocations and
the number of ticks executed. -/
def runTicks (durationMs : ℚ) : List ℚ → ℕ × ℕ
  | [] => (0, 0)
  | e :: rest =>
    if fractionAt durationMs e < 1 then
      ((runTicks durationMs rest).1, (runTicks durationMs rest).2 + 1)
    else (1, 1)

/-- Modelled from the spec wording: the index of the first tick whose fraction
reaches 1. -/
def firstCompleteIdx (durationMs : ℚ) : List ℚ → Option ℕ
  | [] => none
  | e :: rest =>
    if fractionAt durationMs e = 1 then some 0
    else (firstCompleteIdx durationMs rest).map (· + 1)

/-- The browser frame scheduler: issued ids count up, `pending` lists the ids
of frames scheduled and neither fired nor cancelled yet. -/
structure FrameScheduler where
  nextId : ℕ
  pending : List ℕ
deriving DecidableEq

/-- `requestAnimationFrame`: schedule a frame, returning its fresh id. -/
def rafRequest (s : FrameScheduler) : ℕ × FrameScheduler :=
  (s.nextId, { nextId := s.nextId + 1, pending := s.pending ++ [s.nextId] })

/-- `cancelAnimationFrame(i)`: withdraw the frame with id `i`, if pending. -/
def rafCancel (i : ℕ) (s : FrameScheduler) : FrameScheduler :=
  { s with pending := s.pending.filter (fun j => j != i) }

/-- Mounting the effect: `const id = requestAnimationFrame(tick)`; the
returned id is the one the cleanup closure captures (NavigationView.tsx lines
124-125). -/
def mountTickLoop (s : FrameScheduler) : ℕ × FrameScheduler := rafRequest s

/-- One executed tick with fraction below 1: the fired frame leaves the queue
and `requestAnimationFrame(tick)` is called again with its id discarded (line
118 of NavigationView.tsx drops the return value). -/
def execTickRescheduling (firedId : ℕ) (s : FrameScheduler) : FrameScheduler :=
  (rafRequest { s with pending := s.pending.filter (fun j => j != firedId) }).2

/-- Scenario: mount, one executed tick before completion, then the effect
cleanup `cancelAnimationFrame(id)` with the id captured at mount. -/
def schedulerAfterTeardown : FrameScheduler :=
  let m := mountTickLoop { nextId := 0, pending := [] }
  rafCancel m.1 (execTickRescheduling m.1 m.2)

/-- The outcome of the routing fetch of RealMap.tsx lines 102-115: a parsed
coordinate list (service axis order, longitude first), a response without
`routes[0].geometry.coordinates`, or a network error. -/
inductive RoutingResponse where
  | success (coordinates : List (ℚ × ℚ))
  | malformed
  | networkError
deriving DecidableEq

/-- The route-line resolution effect of RealMap.tsx lines 86-118, expressed as
the new value of the `routeLine` state given its previous value: a non-empty
precomputed path wins; with a missing input the line is reset to `[]`; a
successful fetch installs the coordinates with the axes swapped; a malformed
response or a network error returns without updating the state. -/
def resolveRouteLine (prev : List LatLngPoint)
    (pathCoordinates : Option (List LatLngPoint))
    (userLocation destinationPoint : Option LatLngPoint)
    (response : RoutingResponse) : List LatLngPoint :=
  if 0 < (pathCoordinates.getD []).length then pathCoordinates.getD []
  else
    match userLocation, destinationPoint with
    | some _, some _ =>
      match response with
      | .success cs => cs.map (fun c => { lng := c.1, lat := c.2 })
      | .malformed => prev
      | .networkError => prev
    | _, _ => []

/-- The display category of a transit stop. -/
inductive StopCategory where
  | walk
  | bus
  | rail
deriving DecidableEq

/-- Whether `pat` occurs at the start of `s`, character for character. -/
def startsWithSeq : List Char → List Char → Bool
  | [], _ => true
  | _ :: _, [] => false
  | a :: as, b :: bs => a == b && startsWithSeq as bs

/-- JavaScript `s.includes(pat)`: whether `pat` occurs somewhere in `s`. -/
def containsSeq (pat : List Char) : List Char → Bool
  | [] => startsWithSeq pat []
  | c :: rest => startsWithSeq pat (c :: rest) || containsSeq pat rest

/-- The category of a transport-mode label (RealMap.tsx lines 154-161):
lower-case the label; `bus` wins, then any of `metro`, `mrt`, `rail`, else
walk. -/
def categoryOf (mode : String) : StopCategory :=
  let normalized := mode.data.map Char.toLower
  if containsSeq "bus".data normalized then .bus
  else if containsSeq "metro".data normalized || containsSeq "mrt".data normalized
      || containsSeq "rail".data normalized then .rail
  else .walk

/-- `list.map((a, idx) => f(idx, a))` with the running index made explicit. -/
def mapWithIndex {α β : Type} (f : ℕ → α → β) : ℕ → List α → List β
  | _, [] => []
  | i, a :: rest => f i a :: mapWithIndex f (i + 1) rest

/-- The `transitStops` memo of RealMap.tsx lines 137-164: one stop per
transport-mode label, anchored along the resolved coordinates at multiples of
the step size. -/
def transitStops (transportModes : List String)
    (pathCoordinates : Option (List LatLngPoint))
    (routeLine : List LatLngPoint) : List (LatLngPoint × StopCategory) :=
  if transportModes.length = 0 then []
  else
    let coords :=
      if 0 < (pathCoordinates.getD []).length then pathCoordinates.getD []
      else routeLine
    if coords.length = 0 then []
    else
      let step := max 1 (coords.length / transportModes.length)
      mapWithIndex
        (fun idx mode =>
          (coords.getD (min (idx * step) (coords.length - 1)) { lat := 0, lng := 0 },
            categoryOf mode))
        0 transportModes

/-- The mutable recenter bookkeeping of RealMap.tsx lines 40-41: the
first-draw flag and the last applied recenter token. -/
structure MapCtrlState where
  firstDraw : Bool
  lastRecenterToken : Option ℕ
deriving DecidableEq

/-- The refs' initial values: first draw armed, no token applied yet. -/
def initialMapCtrl : MapCtrlState := { firstDraw := true, lastRecenterToken := none }

/-- `typeof recenterToken === "number" && recenterToken !== lastToken`
(RealMap.tsx lines 250-252); an absent token never forces. -/
def forceRecenterOf (st : MapCtrlState) (recenterToken : Option ℕ) : Bool :=
  match recenterToken with
  | some t => if st.lastRecenterToken = some t then false else true
  | none => false

/-- South-west and north-east corners of the bounding box of a point list
(leaflet `polyline.getBounds()`). -/
def boundsOf : List LatLngPoint → LatLngPoint × LatLngPoint
  | [] => ({ lat := 0, lng := 0 }, { lat := 0, lng := 0 })
  | p :: rest =>
    ({ lat := rest.foldl (fun m q => min m q.lat) p.lat
       lng := rest.foldl (fun m q => min m q.lng) p.lng },
     { lat := rest.foldl (fun m q => max m q.lat) p.lat
       lng := rest.foldl (fun m q => max m q.lng) p.lng })

/-- A viewport command issued by a redraw. -/
inductive ViewCmd where
  | fitBounds (southWest northEast : LatLngPoint) (padding : ℕ)
  | setView (center : LatLngPoint) (zoom : ℕ)
deriving DecidableEq

/-- The recenter part of the redraw effect (RealMap.tsx lines 250-268): the
viewport command applied on this redraw, if any, and the controller state
afterwards.  `fitBounds` is used when the route line has more than one point,
otherwise `setView` with zoom 16 on a forced recenter and 14 otherwise; the
last-applied token is updated only on a forced recenter. -/
def redrawView (routeLine : List LatLngPoint) (centerArray : LatLngPoint)
    (st : MapCtrlState) (recenterToken : Option ℕ) :
    Option ViewCmd × MapCtrlState :=
  let forceRecenter := forceRecenterOf st recenterToken
  let shouldRecenter := st.firstDraw || forceRecenter
  let cmd : Option ViewCmd :=
    if shouldRecenter then
      if 1 < routeLine.length then
        some (.fitBounds (boundsOf routeLine).1 (boundsOf routeLine).2 32)
      else some (.setView centerArray (if forceRecenter then 16 else 14))
    else none
  (cmd,
    { firstDraw := false
      lastRecenterToken :=
        if forceRecenter then recenterToken else st.lastRecenterToken })

/-- `clamp` as the spec writes it. -/
def clamp (x lo hi : ℚ) : ℚ := max lo (min x hi)

/-- A 10-point demonstration path. -/
def demoPath10 : List LatLngPoint :=
  [{ lat := 0, lng := 0 }, { lat := 1, lng := 1 }, { lat := 2, lng := 2 },
   { lat := 3, lng := 3 }, { lat := 4, lng := 4 }, { lat := 5, lng := 5 },
   { lat := 6, lng := 6 }, { lat := 7, lng := 7 }, { lat := 8, lng := 8 },
   { lat := 9, lng := 9 }]

/-- Two demonstration segments with durations 2 and 3 minutes. -/
def demoSegments : List Segment :=
  [{ distance := 1, duration := 2, startPoint := "A", endPoint := "B", isLastMile := false },
   { distance := 1, duration := 3, startPoint := "B", endPoint := "C", isLastMile := true }]

/-- A demonstration route with no segment list, 10 minutes and 0.8 km. -/
def demoRoute : Route := { duration := 10, distance := some 0.8, walkingSegments := none }

/-- A demonstration route whose planned distance is 0. -/
def zeroDistanceRoute : Route := { duration := 10, distance := some 0, walkingSegments := none }

/-- C1: for elapsed time `e ≥ 0` the tick's fraction equals
`clamp (e / durationMs) 0 1`, is bounded in `[0, 1]`, and is monotonically
non-decreasing in the elapsed time. -/
theorem fraction_clamp_bounded_monotone (d e e' : ℚ) (hd : 0 < d) (he : 0 ≤ e) :
    fractionAt d e = clamp (e / d) 0 1 ∧
    0 ≤ fractionAt d e ∧ fractionAt d e ≤ 1 ∧
    (e ≤ e' → fractionAt d e ≤ fractionAt d e') := by
  have hq : 0 ≤ e / d := div_nonneg he hd.le
  have h0 : 0 ≤ min (e / d) 1 := le_min hq zero_le_one
  refine ⟨?_, h0, min_le_right _ _, ?_⟩
  · unfold fractionAt clamp
    exact (max_eq_right h0).symm
  · intro hee
    unfold fractionAt
    exact min_le_min ((div_le_div_iff_of_pos_right hd).mpr hee) le_rfl

/-- Witness for C1 at a 600000 ms duration with elapsed times 300000 and
900000. -/
theorem fraction_clamp_bounded_monotone_witness :
    fractionAt 600000 300000 = clamp ((300000 : ℚ) / 600000) 0 1 ∧
    0 ≤ fractionAt 600000 300000 ∧ fractionAt 600000 300000 ≤ 1 ∧
    fractionAt 600000 300000 ≤ fractionAt 600000 900000 := by
  have h := fraction_clamp_bounded_monotone 600000 300000 900000 (by norm_num) (by norm_num)
  exact ⟨h.1, h.2.1, h.2.2.1, h.2.2.2 (by norm_num)⟩

theorem runTicks_eq_firstCompleteIdx (d : ℚ) (l : List ℚ) :
    runTicks d l =
      match firstCompleteIdx d l with
      | some i => (1, i + 1)
      | none => (0, l.length) := by
  induction l with
  | nil => rfl
  | cons e rest ih =>
    by_cases h : fractionAt d e < 1
    · have hne : ¬ fractionAt d e = 1 := by
        intro h1
        rw [h1] at h
        exact lt_irrefl 1 h
      simp only [runTicks, firstCompleteIdx, if_pos h, if_neg hne, ih]
      cases firstCompleteIdx d rest <;> simp
    · have h1 : fractionAt d e = 1 :=
        le_antisymm (min_le_right _ _) (not_lt.mp h)
      simp only [runTicks, firstCompleteIdx, if_neg h, if_pos h1]

/-- C3: over the frames of one simulation run the completion callback fires at
most once; when some tick's fraction reaches 1 it fires exactly once at the
first such tick and no tick runs afterwards; while every fraction stays below
1 it never fires and every tick reschedules. -/
theorem completion_fires_exactly_once (d : ℚ) (l : List ℚ) :
    (runTicks d l).1 ≤ 1 ∧
    (∀ i, firstCompleteIdx d l = some i → runTicks d l = (1, i + 1)) ∧
    (firstCompleteIdx d l = none → runTicks d l = (0, l.length)) := by
  have h := runTicks_eq_firstCompleteIdx d l
  refine ⟨?_, ?_, ?_⟩
  · rw [h]
    cases firstCompleteIdx d l <;> simp
  · intro i hi
    rw [h, hi]
  · intro hn
    rw [h, hn]

/-- Witness for C3: with a 2000 ms duration and frames at elapsed times 1000,
2000 and 3000 ms the callback fires once at the second tick and the third
frame never runs. -/
theorem completion_fires_exactly_once_witness :
    firstCompleteIdx 2000 [1000, 2000, 3000] = some 1 ∧
    runTicks 2000 [1000, 2000, 3000] = (1, 2) := by
  have h1 : firstCompleteIdx 2000 [1000, 2000, 3000] = some 1 := by
    simp only [firstCompleteIdx, fractionAt]
    norm_num
  exact ⟨h1, (completion_fires_exactly_once 2000 [1000, 2000, 3000]).2.1 1 h1⟩

theorem segmentScan_eq_firstIndexGE (target : ℚ) (cum : ℚ) (segs : List Segment) :
    segmentScan target cum segs = firstIndexGE target (cumDurations cum segs) := by
  induction segs generalizing cum with
  | nil => rfl
  | cons seg rest ih => simp only [segmentScan, cumDurations, firstIndexGE, ih]

theorem firstIndexGE_le_of_ge (target : ℚ) (cs : List ℚ) (i : ℕ) (hi : i < cs.length)
    (h : target ≤ cs.get ⟨i, hi⟩) : ∃ j, j ≤ i ∧ firstIndexGE target cs = some j := by
  induction cs generalizing i with
  | nil => exact absurd hi (Nat.not_lt_zero i)
  | cons c rest ih =>
    by_cases hc : target ≤ c
    · exact ⟨0, Nat.zero_le i, by simp [firstIndexGE, hc]⟩
    · cases i with
      | zero => exact absurd h hc
      | succ i' =>
        obtain ⟨j, hj, hfi⟩ := ih i' (Nat.lt_of_succ_lt_succ hi) h
        exact ⟨j + 1, Nat.succ_le_succ hj, by simp [firstIndexGE, hc, hfi]⟩

/-- C7: the active segment index of a tick is the index of the first segment
whose cumulative duration reaches `target = totalSegmentDuration * fraction`;
whenever position `i` of the cumulative list already satisfies the target (in
particular when the target lies exactly on a cumulative boundary) the selected
index is no later than `i`. -/
theorem active_segment_first_satisfying (segs : List Segment) (f : ℚ) :
    activeSegmentIndex segs f =
      firstIndexGE (totalSegmentDuration segs * f) (cumDurations 0 segs) ∧
    ∀ i (hi : i < (cumDurations 0 segs).length),
      totalSegmentDuration segs * f ≤ (cumDurations 0 segs).get ⟨i, hi⟩ →
      ∃ j, j ≤ i ∧ activeSegmentIndex segs f = some j := by
  constructor
  · exact segmentScan_eq_firstIndexGE _ 0 segs
  · intro i hi h
    obtain ⟨j, hj, hfi⟩ := firstIndexGE_le_of_ge _ _ i hi h
    refine ⟨j, hj, ?_⟩
    rw [activeSegmentIndex, segmentScan_eq_firstIndexGE]
    exact hfi

/-- Witness for C7: segment durations `[2, 3]` and fraction `2/5` put the
target exactly on the first cumulative boundary; the selected segment is the
earlier one. -/
theorem active_segment_first_satisfying_witness :
    activeSegmentIndex demoSegments (2 / 5) = some 0 := by
  have hi : 0 < (cumDurations 0 demoSegments).length := by
    simp [demoSegments, cumDurations]
  have hb : totalSegmentDuration demoSegments * (2 / 5) ≤
      (cumDurations 0 demoSegments).get ⟨0, hi⟩ := by
    simp only [demoSegments, totalSegmentDuration, cumDurations, List.map, List.sum_cons,
      List.sum_nil, List.get]
    norm_num
  obtain ⟨j, hj, hfi⟩ :=
    (active_segment_first_satisfying demoSegments (2 / 5)).2 0 hi hb
  rwa [Nat.le_zero.mp hj] at hfi

/-- C2: a redraw whose token equals the last applied token and which is not
the first draw never recenters; a redraw whose token differs from the last
applied token recenters exactly once, updates the last-applied token to the
current token, and an immediately following redraw with the same token does
not recenter again. -/
theorem recenter_token_policy (routeLine : List LatLngPoint) (center : LatLngPoint)
    (st : MapCtrlState) (t : ℕ) :
    (st.firstDraw = false → st.lastRecenterToken = some t →
      (redrawView routeLine center st (some t)).1 = none) ∧
    (st.lastRecenterToken ≠ some t →
      (redrawView routeLine center st (some t)).1 ≠ none ∧
      (redrawView routeLine center st (some t)).2.lastRecenterToken = some t ∧
      ∀ routeLine' center',
        (redrawView routeLine' center'
          (redrawView routeLine center st (some t)).2 (some t)).1 = none) := by
  constructor
  · intro hfd hlast
    simp [redrawView, forceRecenterOf, hfd, hlast]
  · intro hne
    have hforce : forceRecenterOf st (some t) = true := by
      simp [forceRecenterOf, hne]
    refine ⟨?_, ?_, ?_⟩
    · simp only [redrawView, hforce, Bool.or_true, if_true]
      split <;> simp
    · simp [redrawView, hforce]
    · intro routeLine' center'
      simp [redrawView, forceRecenterOf, hforce]

/-- Witness for C2 from the initial controller state with token 1. -/
theorem recenter_token_policy_witness :
    (redrawView [] { lat := 3, lng := 101 } initialMapCtrl (some 1)).1 ≠ none ∧
    (redrawView [] { lat := 3, lng := 101 } initialMapCtrl (some 1)).2.lastRecenterToken
      = some 1 ∧
    (redrawView [] { lat := 3, lng := 101 }
      (redrawView [] { lat := 3, lng := 101 } initialMapCtrl (some 1)).2 (some 1)).1
      = none := by
  have h := (recenter_token_policy [] { lat := 3, lng := 101 } initialMapCtrl 1).2
    (by simp [initialMapCtrl])
  exact ⟨h.1, h.2.1, h.2.2 [] { lat := 3, lng := 101 }⟩

/-- C6: when a recenter applies and the route line has fewer than 2 points the
viewport is set to the computed center at the fixed zoom 14 on a first-draw
recenter and the strictly tighter fixed zoom 16 on a forced recenter; with at
least 2 points it is fit to the route line's bounding box with the fixed
padding 32. -/
theorem recenter_view_policy (routeLine : List LatLngPoint) (center : LatLngPoint)
    (st : MapCtrlState) (token : Option ℕ)
    (hre : st.firstDraw = true ∨ forceRecenterOf st token = true) :
    (routeLine.length < 2 →
      (redrawView routeLine center st token).1 =
        some (.setView center (if forceRecenterOf st token then 16 else 14)) ∧
      (14 : ℕ) < 16) ∧
    (2 ≤ routeLine.length →
      (redrawView routeLine center st token).1 =
        some (.fitBounds (boundsOf routeLine).1 (boundsOf routeLine).2 32)) := by
  have hshould : (st.firstDraw || forceRecenterOf st token) = true := by
    rcases hre with h | h <;> simp [h]
  constructor
  · intro hlen
    have hnot : ¬ 1 < routeLine.length := by omega
    refine ⟨?_, by norm_num⟩
    simp [redrawView, hshould, hnot]
  · intro hlen
    have hgt : 1 < routeLine.length := by omega
    simp [redrawView, hshould, hgt]

/-- Witness for C6: a first draw with an empty route line recenters on the
center point at zoom 14, strictly looser than the forced zoom 16. -/
theorem recenter_view_policy_witness :
    (redrawView [] { lat := 3, lng := 101 } initialMapCtrl none).1 =
      some (ViewCmd.setView { lat := 3, lng := 101 } 14) ∧ (14 : ℕ) < 16 := by
  have h := (recenter_view_policy [] { lat := 3, lng := 101 } initialMapCtrl none
    (Or.inl rfl)).1 (by simp)
  simpa [forceRecenterOf] using h

/-- C5: the teardown cleanup cancels only the frame id captured at mount;
after one executed tick the loop's rescheduled frame, with id 1, is still
pending after teardown, so the pending tick is not withdrawn and will run
after the screen exits. -/
theorem pending_tick_survives_teardown :
    schedulerAfterTeardown.pending = [1] ∧ schedulerAfterTeardown.pending ≠ [] := by
  decide

/-- C4 counterexample: a network error with no precomputed path leaves the
previous, non-empty route line in place instead of producing the empty
sequence. -/
theorem failed_lookup_keeps_previous_line :
    resolveRouteLine [{ lat := 1, lng := 1 }] none (some { lat := 1, lng := 1 })
        (some { lat := 2, lng := 2 }) RoutingResponse.networkError =
      [{ lat := 1, lng := 1 }] ∧
    ([{ lat := (1 : ℚ), lng := 1 }] : List LatLngPoint) ≠ [] := by
  exact ⟨rfl, by simp⟩

/-- C4 amended: a failing lookup (malformed response or network error) with no
precomputed path performs no state update, leaving the route line at its
previous value; in particular, starting from the initial empty route line the
result is the empty sequence. -/
theorem failed_lookup_empty_from_initial (prev : List LatLngPoint)
    (u d : LatLngPoint) (response : RoutingResponse)
    (hfail : response = RoutingResponse.malformed ∨
      response = RoutingResponse.networkError) :
    resolveRouteLine prev none (some u) (some d) response = prev ∧
    resolveRouteLine [] none (some u) (some d) response = [] := by
  rcases hfail with h | h <;> subst h <;> exact ⟨rfl, rfl⟩

/-- Witness for the amended C4 at a malformed response. -/
theorem failed_lookup_empty_from_initial_witness :
    resolveRouteLine [] none (some { lat := 1, lng := 1 })
      (some { lat := 2, lng := 2 }) RoutingResponse.malformed = [] :=
  (failed_lookup_empty_from_initial [] { lat := 1, lng := 1 } { lat := 2, lng := 2 }
    RoutingResponse.malformed (Or.inl rfl)).2

/-- C8: a route without walking segments simulates over the single synthetic
last-mile segment spanning the whole duration and distance; on the
0.8 km / 10 min route at fraction 1/2 the remaining distance is 0.40 km and
the remaining minutes are 5. -/
theorem zero_segment_route_synthetic (r : Route)
    (hseg : r.walkingSegments = none ∨ r.walkingSegments = some []) :
    segmentsOf r = [syntheticSegment r] ∧
    (syntheticSegment r).duration = r.duration ∧
    (syntheticSegment r).distance = distanceOrDefault r.distance ∧
    (syntheticSegment r).isLastMile = true ∧
    (r.duration = 10 → r.distance = some 0.8 →
      remainingMinutes r (1 / 2) = 5 ∧ remainingDistance r (1 / 2) = 0.40) := by
  refine ⟨?_, rfl, rfl, rfl, ?_⟩
  · rcases hseg with h | h <;> simp [segmentsOf, h]
  · intro hdur hdist
    constructor
    · rw [remainingMinutes, hdur, jsRound]
      rw [show ((10 : ℚ) * (1 - 1 / 2) + 1 / 2) = 11 / 2 by norm_num]
      rw [show ⌊(11 / 2 : ℚ)⌋ = 5 by norm_num]
      norm_num
    · rw [remainingDistance, hdist]
      rw [show distanceOrDefault (some 0.8) = 4 / 5 by
        rw [distanceOrDefault]
        norm_num]
      rw [round2, jsRound]
      rw [show ((4 / 5 : ℚ) * (1 - 1 / 2) * 100 + 1 / 2) = 81 / 2 by norm_num]
      rw [show ⌊(81 / 2 : ℚ)⌋ = 40 by norm_num]
      norm_num

/-- Witness for C8 on the concrete 10 min / 0.8 km route with no segments. -/
theorem zero_segment_route_synthetic_witness :
    segmentsOf demoRoute = [syntheticSegment demoRoute] ∧
    remainingMinutes demoRoute (1 / 2) = 5 ∧
    remainingDistance demoRoute (1 / 2) = 0.40 := by
  have h := zero_segment_route_synthetic demoRoute (Or.inl rfl)
  exact ⟨h.1, (h.2.2.2.2 rfl rfl).1, (h.2.2.2.2 rfl rfl).2⟩

/-- C10: with an absent or zero planned distance the 0.8 km default is used at
every distance use-site: the initial remaining-distance state, the per-tick
remaining distance (which then agrees with the same route carrying distance
0.8), and the synthetic last-mile segment's distance. -/
theorem distance_default_substituted (r : Route)
    (h : r.distance = none ∨ r.distance = some 0) :
    distanceOrDefault r.distance = 0.8 ∧
    initialRemainingDistance r = 0.8 ∧
    (∀ f, remainingDistance r f = remainingDistance { r with distance := some 0.8 } f) ∧
    (syntheticSegment r).distance = 0.8 := by
  have hd : distanceOrDefault r.distance = 0.8 := by
    rcases h with h | h <;> simp [h, distanceOrDefault]
  have hd8 : distanceOrDefault (some 0.8) = 0.8 := by
    rw [distanceOrDefault]
    norm_num
  refine ⟨hd, hd, ?_, hd⟩
  intro f
  simp only [remainingDistance, hd, hd8]

/-- Witness for C10 on the concrete route whose planned distance is 0. -/
theorem distance_default_substituted_witness :
    distanceOrDefault zeroDistanceRoute.distance = 0.8 ∧
    initialRemainingDistance zeroDistanceRoute = 0.8 ∧
    remainingDistance zeroDistanceRoute (1 / 2) =
      remainingDistance { zeroDistanceRoute with distance := some 0.8 } (1 / 2) ∧
    (syntheticSegment zeroDistanceRoute).distance = 0.8 := by
  have h := distance_default_substituted zeroDistanceRoute (Or.inr rfl)
  exact ⟨h.1, h.2.1, h.2.2.1 (1 / 2), h.2.2.2⟩

theorem mapWithIndex_length {α β : Type} (f : ℕ → α → β) (i : ℕ) (l : List α) :
    (mapWithIndex f i l).length = l.length := by
  induction l generalizing i with
  | nil => rfl
  | cons a rest ih => simp [mapWithIndex, ih]

theorem mapWithIndex_getD {α β : Type} (f : ℕ → α → β) (i j : ℕ) (l : List α)
    (hj : j < l.length) (db : β) (da : α) :
    (mapWithIndex f i l).getD j db = f (i + j) (l.getD j da) := by
  induction l generalizing i j with
  | nil => exact absurd hj (Nat.not_lt_zero j)
  | cons a rest ih =>
    cases j with
    | zero => rfl
    | succ j' =>
      have harith : i + 1 + j' = i + (j' + 1) := by omega
      have h := ih (i + 1) j' (Nat.lt_of_succ_lt_succ hj)
      simpa [mapWithIndex, harith] using h

theorem transitStops_eq (modes : List String) (path : List LatLngPoint)
    (hm : modes ≠ []) (hp : path ≠ []) :
    transitStops modes (some path) [] =
      mapWithIndex
        (fun idx mode =>
          (path.getD (min (idx * max 1 (path.length / modes.length)) (path.length - 1))
            { lat := 0, lng := 0 }, categoryOf mode)) 0 modes := by
  have hml : ¬ modes.length = 0 := by simpa using hm
  have hpl : 0 < path.length := List.length_pos.mpr hp
  have hpne : ¬ path.length = 0 := by omega
  simp only [transitStops, Option.getD_some, if_neg hml, if_pos hpl, if_neg hpne]

/-- C9: with a non-empty path and a non-empty label list the projector yields
exactly one stop per label, anchored at `path[min(i * step, pathLength - 1)]`
with `step = max 1 (pathLength / labelCount)` and categorized from the label
text; the 10-point path with labels "Bus 12" and "MRT Circle" yields stops at
path indices 0 and 5, categorized bus and rail. -/
theorem transit_stops_projection :
    (∀ (modes : List String) (path : List LatLngPoint), modes ≠ [] → path ≠ [] →
      (transitStops modes (some path) []).length = modes.length ∧
      ∀ i, i < modes.length →
        (transitStops modes (some path) []).getD i
            ({ lat := 0, lng := 0 }, StopCategory.walk) =
          (path.getD (min (i * max 1 (path.length / modes.length)) (path.length - 1))
              { lat := 0, lng := 0 },
            categoryOf (modes.getD i ""))) ∧
    transitStops ["Bus 12", "MRT Circle"] (some demoPath10) [] =
      [({ lat := 0, lng := 0 }, StopCategory.bus),
       ({ lat := 5, lng := 5 }, StopCategory.rail)] := by
  constructor
  · intro modes path hm hp
    rw [transitStops_eq modes path hm hp]
    constructor
    · exact mapWithIndex_length _ 0 modes
    · intro i hi
      rw [mapWithIndex_getD _ 0 i modes hi _ ""]
      simp
  · rfl

/-- Witness for C9 on the 10-point path with the two demonstration labels. -/
theorem transit_stops_projection_witness :
    (transitStops ["Bus 12", "MRT Circle"] (some demoPath10) []).length = 2 := by
  simpa using (transit_stops_projection.1 ["Bus 12", "MRT Circle"] demoPath10
    (by simp) (by simp [demoPath10])).1

end Zenway
